import Mathlib

/-!
Shallow embedding of the invoice-generation core of the repository
(app/pdf_generator.py): the totals engine (_calculate_totals), the
logical content of the visual layout renderer (_build_reportlab_pdf),
the ZUGFeRD trade-document serializer (_generate_zugferd_xml) and the
PDF/A-3 assembler (_make_pdfa_compliant), together with the pipeline
generate_invoice_pdf.

Python Decimal values are embedded as exact rationals (ℚ); Decimal
quantization at 2 or 4 places is explicit rounding.  Strings coming
from the web form are embedded as Lean Strings; fallible decimal and
date parsing is Except-valued.  Purely visual aspects (fonts, colours,
coordinates, the concrete byte serialization of the PDF container) are
outside the embedding; the renderer is modelled by the logical rows of
its item table and its footer text, and the assembler by the object
graph structure it manipulates (pages, metadata, output intents,
embedded-file name tree, associated-files array).
-/

namespace Rechnung

/-- Round-half-up of Python's decimal module (ROUND_HALF_UP: ties go away
from zero), as an integer rounding of a rational. -/
def rhu (q : ℚ) : ℤ := if 0 ≤ q then ⌊q + 1 / 2⌋ else -⌊-q + 1 / 2⌋

/-- Round-half-even (banker's rounding), the default rounding of Python's
decimal context, used by Decimal.quantize when no rounding argument is
given and by Decimal formatting such as an f-string with a .2f spec. -/
def rhe (q : ℚ) : ℤ :=
  if q - ⌊q⌋ < 1 / 2 then ⌊q⌋
  else if 1 / 2 < q - ⌊q⌋ then ⌊q⌋ + 1
  else if ⌊q⌋ % 2 = 0 then ⌊q⌋ else ⌊q⌋ + 1

/-- Decimal.quantize(Decimal("0.01"), rounding=ROUND_HALF_UP). -/
def quantize2HU (q : ℚ) : ℚ := (rhu (q * 100) : ℚ) / 100

/-- Decimal.quantize(Decimal("0.01")) under the default context rounding
(ROUND_HALF_EVEN); also the numeric value produced by displaying a
Decimal with a two-place fixed-point format. -/
def quantize2HE (q : ℚ) : ℚ := (rhe (q * 100) : ℚ) / 100

/-- Decimal.quantize(Decimal("0.0001")) under the default context rounding. -/
def quantize4HE (q : ℚ) : ℚ := (rhe (q * 10000) : ℚ) / 10000

/-!
Decimal-literal parsing: the fallible part of Decimal(str(x)).  We model
the finite literals [sign]digits[.digits]; the exotic forms Python's
Decimal also accepts (exponents, NaN, Infinity) play no role in any
claim.  The parse result is first computed as an integer mantissa and a
power-of-ten exponent so that concrete runs are kernel-decidable; the
rational value is taken at the end.
-/

def digitsVal (l : List Char) : ℕ := l.foldl (fun a c => 10 * a + (c.toNat - 48)) 0

def allDigits (l : List Char) : Bool := l.all Char.isDigit

/-- Split a character list at every occurrence of a separator character,
Python str.split style: the empty list splits to [[]], and each
separator occurrence opens a new chunk. -/
def splitOnChar (c : Char) : List Char → List (List Char)
  | [] => [[]]
  | x :: rest =>
    let r := splitOnChar c rest
    if x = c then [] :: r
    else
      match r with
      | [] => [[x]]
      | h :: t => (x :: h) :: t

/-- Unsigned decimal literal: digits with at most one point and at least
one digit overall.  Returns mantissa and decimal exponent. -/
def parseURep (l : List Char) : Option (ℤ × ℕ) :=
  match splitOnChar '.' l with
  | [ip] =>
    if ip ≠ [] ∧ allDigits ip then some ((digitsVal ip : ℤ), 0) else none
  | [ip, fp] =>
    if (ip ≠ [] ∨ fp ≠ []) ∧ allDigits ip ∧ allDigits fp then
      some (((digitsVal ip * 10 ^ fp.length + digitsVal fp : ℕ) : ℤ), fp.length)
    else none
  | _ => none

/-- Signed decimal literal, as mantissa and decimal exponent. -/
def parseDecRep (s : String) : Option (ℤ × ℕ) :=
  if s.data.head? = some '-' then (parseURep s.data.tail).map (fun x => (-x.1, x.2))
  else if s.data.head? = some '+' then parseURep s.data.tail
  else parseURep s.data

def repVal (x : ℤ × ℕ) : ℚ := (x.1 : ℚ) / 10 ^ x.2

/-- Parse a decimal literal the way Decimal(s) does for plain finite
literals; none models the decimal.InvalidOperation exception. -/
def parseDec (s : String) : Option ℚ := (parseDecRep s).map repVal

/-- The exceptions of the pipeline: parseError models the
decimal.InvalidOperation raised on a malformed numeric string (the
ParseError of the specification); valueError models the ValueError
raised by datetime.strptime on a string not matching its format. -/
inductive PyError
  | parseError
  | valueError
deriving DecidableEq

/-- item.get(key, "0") or "0": a missing field yields the default "0",
and an empty string (falsy in Python) is also replaced by "0". -/
def fieldStr (f : Option String) : String :=
  match f with
  | none => "0"
  | some s => if s = "" then "0" else s

/-- Decimal(str(item.get(key, "0") or "0")): the fallible numeric read
of one item field, with missing and empty fields read as zero.  (The
str(.) wrapper only matters for non-string dict values such as Decimal
objects, which round-trip; fields are embedded as strings.) -/
def decodeField (f : Option String) : Except PyError ℚ :=
  match parseDec (fieldStr f) with
  | some q => Except.ok q
  | none => Except.error PyError.parseError

/-- One line item, as the dicts consumed by the generator: every field
optional, numeric fields carried as strings. -/
structure Item where
  description : Option String := none
  quantity : Option String := none
  unit_price : Option String := none
  vat_rate : Option String := none
deriving DecidableEq

/-- One bucket of the per-rate VAT breakdown. -/
structure Bucket where
  basis : ℚ
  vat : ℚ
deriving DecidableEq

/-- vat_summary: a Python dict keyed by the Decimal rate, in insertion
order, embedded as an association list. -/
abbrev VatSummary := List (ℚ × Bucket)

/-- vat_summary[rate]['basis'] += ln and vat_summary[rate]['vat'] += lv,
creating a fresh zero bucket first when the rate key is absent (a fresh
key is appended at the end, matching dict insertion order). -/
def addToBucket : VatSummary → ℚ → ℚ → ℚ → VatSummary
  | [], r, ln, lv => [(r, ⟨ln, lv⟩)]
  | (r0, b) :: rest, r, ln, lv =>
    if r0 = r then (r0, ⟨b.basis + ln, b.vat + lv⟩) :: rest
    else (r0, b) :: addToBucket rest r ln lv

def basisSum (s : VatSummary) : ℚ := (s.map (fun x => x.2.basis)).sum

def vatSum (s : VatSummary) : ℚ := (s.map (fun x => x.2.vat)).sum

/-- The effective VAT rate of an item: Decimal("0.0") if
is_small_business else Decimal(str(item.get("vat_rate", "0") or "0")).
Note that the stored rate string is not even parsed when the
small-business flag is set. -/
def itemRate (sb : Bool) (it : Item) : Except PyError ℚ :=
  if sb then Except.ok 0 else decodeField it.vat_rate

/-- The item loop of _calculate_totals: accumulates the running net
total and the per-rate summary; the per-line VAT is rounded half-up at
two places before accumulation, the line net is not rounded. -/
def calculate_totals_aux (sb : Bool) :
    List Item → ℚ → VatSummary → Except PyError (ℚ × VatSummary)
  | [], n, s => Except.ok (n, s)
  | it :: rest, n, s => do
    let q ← decodeField it.quantity
    let p ← decodeField it.unit_price
    let r ← itemRate sb it
    let ln := q * p
    calculate_totals_aux sb rest (n + ln) (addToBucket s r ln (quantize2HU (ln * (r / 100))))

/-- The tuple returned by _calculate_totals. -/
structure Totals where
  net : ℚ
  vat : ℚ
  gross : ℚ
  summary : VatSummary
deriving DecidableEq

/-- _calculate_totals(items, is_small_business): total net is the sum of
the unrounded line nets, total VAT the sum of the buckets' rounded VAT
amounts, gross their sum. -/
def calculate_totals (items : List Item) (sb : Bool) : Except PyError Totals := do
  let (n, s) ← calculate_totals_aux sb items 0 []
  Except.ok ⟨n, vatSum s, n + vatSum s, s⟩

/-!  Form data.  Values arriving from the web layer are strings; the
small-business checkbox can in principle also carry a Python boolean, so
its value is embedded with both alternatives.  Fields that only get
copied verbatim into address blocks of the PDF and XML (sender and
receiver street, zip, city, IBAN, tax ids, Leitweg-ID and the register
details of the footer) are omitted: no claim depends on them. -/

inductive FormVal
  | s (v : String)
  | b (v : Bool)
deriving DecidableEq

structure FormData where
  is_small_business : Option FormVal := none
  notes : Option String := none
  invoice_date : Option String := none
  invoice_number : Option String := none
  sender_name : Option String := none
deriving DecidableEq

/-- Python's form_data.get('is_small_business') == 'true': a string
compares by content, while a missing key (None) or a Python bool
compares unequal to the string 'true' (Python == across types is
False, never an error). -/
def pyEqTrueStr : Option FormVal → Bool
  | some (FormVal.s v) => v = "true"
  | some (FormVal.b _) => false
  | none => false

/-- The small-business test, written identically at its three use sites
(_draw_header_and_footer, _build_reportlab_pdf, _generate_zugferd_xml). -/
def FormData.isSmallBusiness (fd : FormData) : Bool := pyEqTrueStr fd.is_small_business

/-- The § 19 UStG sentence prepended to the notes for small businesses. -/
def disclaimer : String := "Gemäß § 19 UStG wird keine Umsatzsteuer berechnet.\n"

/-- The notes text of the footer: form_data.get('notes', ''), with the
legal disclaimer prepended when the small-business flag is set. -/
def footerNotes (fd : FormData) : String :=
  let notes := fd.notes.getD ""
  if fd.isSmallBusiness then disclaimer ++ notes else notes

/-!  The visual renderer, reduced to its logical content: the rows of
the item table (amounts carried as the rational value its two-place
German currency format displays) and the footer notes. -/

inductive PdfRow
  | header (cols : List String)
  | item (desc : String) (menge preis gesamt : ℚ)
  | netto (amount : ℚ)
  | vatRate (rate : ℚ) (amount : ℚ)
  | gross (amount : ℚ)
deriving DecidableEq

def isVatRow : PdfRow → Bool
  | PdfRow.vatRate _ _ => true
  | _ => false

/-- Insertion into a rate-sorted summary (sorted(vat_summary.items())
sorts by the Decimal rate key; keys are distinct). -/
def insertByRate (x : ℚ × Bucket) : VatSummary → VatSummary
  | [] => [x]
  | y :: rest => if x.1 ≤ y.1 then x :: y :: rest else y :: insertByRate x rest

def sortByRate : VatSummary → VatSummary
  | [] => []
  | x :: rest => insertByRate x (sortByRate rest)

/-- The VAT rows of the summary block: one row per rate bucket of the
sorted summary whose accumulated VAT amount is positive
(if summary['vat'] > 0), displaying the amount at two places. -/
def vatRows (s : VatSummary) : List PdfRow :=
  ((sortByRate s).filter (fun x => 0 < x.2.vat)).map
    (fun x => PdfRow.vatRate x.1 (quantize2HE x.2.vat))

/-- One item row of the table: quantity and price re-read from the item,
the displayed line total gross at the effective rate. -/
def buildItemRow (sb : Bool) (it : Item) : Except PyError PdfRow := do
  let menge ← decodeField it.quantity
  let preis ← decodeField it.unit_price
  let r ← itemRate sb it
  let gesamt := menge * preis * (1 + r / 100)
  Except.ok (PdfRow.item (it.description.getD "") menge (quantize2HE preis) (quantize2HE gesamt))

structure RenderedPdf where
  rows : List PdfRow
  notes : String
deriving DecidableEq

/-- _build_reportlab_pdf: computes the totals (with the small-business
flag read from the form), then lays out the header row, one row per
item, the net-total row, the VAT rows (skipped entirely for small
businesses) and the bold gross-total row; the footer carries the notes. -/
def build_reportlab_pdf (fd : FormData) (items : List Item) :
    Except PyError RenderedPdf := do
  let sb := fd.isSmallBusiness
  let t ← calculate_totals items sb
  let itemRows ← items.mapM (buildItemRow sb)
  Except.ok
    ⟨PdfRow.header ["Beschreibung", "Menge", "Einzelpreis", "Gesamt"] :: itemRows
        ++ [PdfRow.netto (quantize2HE t.net)]
        ++ (if sb then [] else vatRows t.summary)
        ++ [PdfRow.gross (quantize2HE t.gross)],
      footerNotes fd⟩

/-- The grand total the rendered PDF displays in its final bold row. -/
def pdfGrossDisplayed (r : RenderedPdf) : Option ℚ :=
  match r.rows.getLast? with
  | some (PdfRow.gross a) => some a
  | _ => none

/-!  Date handling of the serializer: datetime.strptime(s, '%Y-%m-%d'). -/

def isLeapYear (y : ℕ) : Bool := (y % 4 = 0 ∧ y % 100 ≠ 0) ∨ y % 400 = 0

def daysInMonth (y m : ℕ) : ℕ :=
  if m = 2 then (if isLeapYear y then 29 else 28)
  else if m = 4 ∨ m = 6 ∨ m = 9 ∨ m = 11 then 30 else 31

/-- strptime(s, '%Y-%m-%d'): three dash-separated digit groups (year up
to four digits, month and day up to two), month and day in range for a
valid date; none models the ValueError strptime raises otherwise. -/
def parseYMD (s : String) : Option (ℕ × ℕ × ℕ) :=
  match splitOnChar '-' s.data with
  | [ys, ms, ds] =>
    if ys ≠ [] ∧ ys.length ≤ 4 ∧ allDigits ys ∧ ms ≠ [] ∧ ms.length ≤ 2 ∧ allDigits ms
        ∧ ds ≠ [] ∧ ds.length ≤ 2 ∧ allDigits ds then
      let y := digitsVal ys
      let m := digitsVal ms
      let d := digitsVal ds
      if 1 ≤ y ∧ 1 ≤ m ∧ m ≤ 12 ∧ 1 ≤ d ∧ d ≤ daysInMonth y m then some (y, m, d) else none
    else none
  | _ => none

/-!  The ZUGFeRD/Factur-X trade document, reduced to the structured
content the serializer computes.  Fixed namespace declarations, party
address blocks, payment means and other verbatim form-field copies are
omitted: no claim depends on them. -/

/-- _get_tax_category_code: "S" (standard rate) for a positive rate,
else "O" (outside scope of tax). -/
def get_tax_category_code (rate : ℚ) : String := if 0 < rate then "S" else "O"

structure TradeTax where
  calculatedAmount : ℚ
  basisAmount : ℚ
  categoryCode : String
  ratePercent : ℚ
deriving DecidableEq

structure XmlLine where
  lineId : ℕ
  productName : String
  billedQuantity : ℚ
  categoryCode : String
  ratePercent : ℚ
  lineTotalAmount : ℚ
  chargeAmount : ℚ
deriving DecidableEq

structure ZugferdXml where
  docId : String
  issueDate : ℕ × ℕ × ℕ
  lines : List XmlLine
  tradeTaxes : List TradeTax
  lineTotalAmount : ℚ
  taxBasisTotalAmount : ℚ
  taxTotalAmount : ℚ
  grandTotalAmount : ℚ
  duePayableAmount : ℚ
deriving DecidableEq

/-- One IncludedSupplyChainTradeLineItem: 1-based line id, product name
(default "Beschreibung"), quantity at four places, category code and
rate at two places, line total rounded half-up at two places (and
re-quantized at serialization), unit price at four places. -/
def buildXmlLine (sb : Bool) (i : ℕ) (it : Item) : Except PyError XmlLine := do
  let menge ← decodeField it.quantity
  let preis ← decodeField it.unit_price
  let r ← itemRate sb it
  let lineTotal := quantize2HU (menge * preis)
  Except.ok
    ⟨i, it.description.getD "Beschreibung", quantize4HE menge, get_tax_category_code r,
      quantize2HE r, quantize2HE lineTotal, quantize4HE preis⟩

/-- for i, item in enumerate(items, 1): the line elements in order,
numbered from 1. -/
def buildXmlLines (sb : Bool) : ℕ → List Item → Except PyError (List XmlLine)
  | _, [] => Except.ok []
  | i, it :: rest => do
    let l ← buildXmlLine sb i it
    let ls ← buildXmlLines sb (i + 1) rest
    Except.ok (l :: ls)

/-- _generate_zugferd_xml: reads the invoice date (defaulting to today's
date string only when the key is absent) and parses it with strptime,
computes the totals with the same small-business flag as the renderer,
then serializes lines, one ApplicableTradeTax per summary bucket, and
the header monetary summation whose GrandTotalAmount (and
DuePayableAmount) is the gross total at two places. -/
def generate_zugferd_xml (fd : FormData) (items : List Item) (today : String) :
    Except PyError ZugferdXml := do
  let dateStr := fd.invoice_date.getD today
  let date ←
    match parseYMD dateStr with
    | some d => Except.ok d
    | none => Except.error PyError.valueError
  let sb := fd.isSmallBusiness
  let t ← calculate_totals items sb
  let lines ← buildXmlLines sb 1 items
  Except.ok
    ⟨fd.invoice_number.getD "INV-GENERATED", date, lines,
      t.summary.map (fun x =>
        ⟨quantize2HE x.2.vat, quantize2HE x.2.basis,
          get_tax_category_code (quantize2HE x.1), quantize2HE x.1⟩),
      quantize2HE t.net, quantize2HE t.net, quantize2HE t.vat,
      quantize2HE t.gross, quantize2HE t.gross⟩

/-!  The PDF/A-3 assembler, on the object-graph view of the container. -/

structure XmpMeta where
  pdfaidPart : ℕ
  pdfaidConformance : String
  title : String
  creator : String
  fxDocumentFileName : String
deriving DecidableEq

/-- The XMP metadata stream injected by the assembler. -/
def buildXmp (fd : FormData) : XmpMeta :=
  ⟨3, "B", "Rechnung " ++ fd.invoice_number.getD "", fd.sender_name.getD "", "factur-x.xml"⟩

structure OutputIntent where
  subtype : String
  identifier : String
deriving DecidableEq

def srgbOutputIntent : OutputIntent := ⟨"GTS_PDFA1", "sRGB IEC61966-2.1"⟩

/-- The file-specification object wrapping the embedded XML. -/
structure FileSpec where
  f : String
  desc : String
  afRelationship : String
  ef : ZugferdXml
deriving DecidableEq

/-- The object-graph view of a PDF container: its pages (content kept
opaque) and the catalog structures the assembler touches. -/
structure PdfDoc where
  pages : List String
  metadata : Option XmpMeta
  outputIntents : List OutputIntent
  embeddedFiles : List (String × FileSpec)
  af : List FileSpec
deriving DecidableEq

/-- The output of the visual renderer as a container: ReportLab emits
the pages; it adds no XMP metadata stream, output intent, embedded-file
name tree or associated-files array to the catalog. -/
def rendererOutputDoc (pages : List String) : PdfDoc := ⟨pages, none, [], [], []⟩

/-- _make_pdfa_compliant: a fresh writer receives every page of the
parsed input in order, then the XMP metadata stream is set, the output
intent appended when the ICC profile file exists (the writer starts with
none), and the XML is embedded as a file spec named "factur-x.xml",
registered once in the embedded-files name tree and once in the
associated-files array (both created fresh by setdefault). -/
def make_pdfa_compliant (input : PdfDoc) (xml : ZugferdXml) (fd : FormData)
    (iccExists : Bool) : PdfDoc :=
  let fs : FileSpec := ⟨"factur-x.xml", "Factur-X Invoice", "Data", xml⟩
  { pages := input.pages
    metadata := some (buildXmp fd)
    outputIntents := if iccExists then [srgbOutputIntent] else []
    embeddedFiles := [("factur-x.xml", fs)]
    af := [fs] }

/-- The buffer generate_invoice_pdf returns: the visual document plus
the assembled container. -/
structure GeneratedInvoice where
  visual : RenderedPdf
  doc : PdfDoc
deriving DecidableEq

/-- generate_invoice_pdf: render the visual PDF (step 1), generate the
ZUGFeRD XML (step 2), assemble (step 3).  An exception in any step
escapes and no buffer is produced.  renderedPages stands for the page
byte content ReportLab paginates the story into, opaque to this model;
today is the current date string used when the form has no
invoice_date key. -/
def generate_invoice_pdf (fd : FormData) (items : List Item) (today : String)
    (iccExists : Bool) (renderedPages : List String) :
    Except PyError GeneratedInvoice := do
  let visual ← build_reportlab_pdf fd items
  let xml ← generate_zugferd_xml fd items today
  Except.ok ⟨visual, make_pdfa_compliant (rendererOutputDoc renderedPages) xml fd iccExists⟩

/-!  Helper lemmas. -/

theorem ok_bind {α β : Type} (a : α) (f : α → Except PyError β) :
    (Except.ok a : Except PyError α) >>= f = f a := rfl

theorem error_bind {α β : Type} (e : PyError) (f : α → Except PyError β) :
    (Except.error e : Except PyError α) >>= f = Except.error e := rfl

theorem decodeField_eval (f : Option String) (m : ℤ) (e : ℕ)
    (h : parseDecRep (fieldStr f) = some (m, e)) :
    decodeField f = Except.ok ((m : ℚ) / 10 ^ e) := by
  simp [decodeField, parseDec, h, repVal]

theorem decodeField_fail (f : Option String)
    (h : parseDecRep (fieldStr f) = none) :
    decodeField f = Except.error PyError.parseError := by
  simp [decodeField, parseDec, h]

theorem addToBucket_basisSum (s : VatSummary) (r ln lv : ℚ) :
    basisSum (addToBucket s r ln lv) = basisSum s + ln := by
  induction s with
  | nil => simp [addToBucket, basisSum]
  | cons y rest ih =>
    obtain ⟨r0, b⟩ := y
    by_cases hr : r0 = r
    · simp [addToBucket, hr, basisSum]
      ring
    · simp [addToBucket, hr, basisSum] at ih ⊢
      linarith [ih]

theorem addToBucket_vatSum (s : VatSummary) (r ln lv : ℚ) :
    vatSum (addToBucket s r ln lv) = vatSum s + lv := by
  induction s with
  | nil => simp [addToBucket, vatSum]
  | cons y rest ih =>
    obtain ⟨r0, b⟩ := y
    by_cases hr : r0 = r
    · simp [addToBucket, hr, vatSum]
      ring
    · simp [addToBucket, hr, vatSum] at ih ⊢
      linarith [ih]

/-- The running net accumulator and the total basis of the summary move
in lockstep through the item loop. -/
theorem calculate_totals_aux_net (sb : Bool) (l : List Item) :
    ∀ (n0 : ℚ) (s0 : VatSummary) (n : ℚ) (s : VatSummary),
      calculate_totals_aux sb l n0 s0 = Except.ok (n, s) →
      n - basisSum s = n0 - basisSum s0 := by
  induction l with
  | nil =>
    intro n0 s0 n s h
    simp [calculate_totals_aux] at h
    obtain ⟨rfl, rfl⟩ := h
    ring
  | cons it rest ih =>
    intro n0 s0 n s h
    simp only [calculate_totals_aux] at h
    cases hq : decodeField it.quantity with
    | error e => rw [hq, error_bind] at h; exact absurd h (by simp)
    | ok q =>
      rw [hq, ok_bind] at h
      cases hp : decodeField it.unit_price with
      | error e => rw [hp, error_bind] at h; exact absurd h (by simp)
      | ok p =>
        rw [hp, ok_bind] at h
        cases hr : itemRate sb it with
        | error e => rw [hr, error_bind] at h; exact absurd h (by simp)
        | ok r =>
          rw [hr, ok_bind] at h
          have h2 := ih _ _ _ _ h
          rw [addToBucket_basisSum] at h2
          linarith [h2]

/-- Unfolding of calculate_totals at an ok result. -/
theorem calculate_totals_ok (items : List Item) (sb : Bool) (t : Totals)
    (h : calculate_totals items sb = Except.ok t) :
    ∃ n s, calculate_totals_aux sb items 0 [] = Except.ok (n, s) ∧
      t = ⟨n, vatSum s, n + vatSum s, s⟩ := by
  unfold calculate_totals at h
  cases haux : calculate_totals_aux sb items 0 [] with
  | error e => rw [haux, error_bind] at h; exact absurd h (by simp)
  | ok ns =>
    obtain ⟨n, s⟩ := ns
    rw [haux, ok_bind] at h
    exact ⟨n, s, rfl, by simpa using h.symm⟩

/-!  Claim C3. -/

/-- C3: for every item list and small-business flag, the tuple returned
by _calculate_totals satisfies exactly: the sum of the buckets' basis
amounts equals the total net, and the sum of the buckets' VAT amounts
equals the total VAT. -/
theorem C3_vat_summary_partitions_totals (items : List Item) (sb : Bool) (t : Totals)
    (h : calculate_totals items sb = Except.ok t) :
    basisSum t.summary = t.net ∧ vatSum t.summary = t.vat := by
  obtain ⟨n, s, haux, rfl⟩ := calculate_totals_ok items sb t h
  have hnet := calculate_totals_aux_net sb items 0 [] n s haux
  have h0 : basisSum ([] : VatSummary) = 0 := rfl
  refine ⟨?_, rfl⟩
  show basisSum s = n
  rw [h0] at hnet
  linarith [hnet]

/-- Witness for C3 at the specification's worked example. -/
theorem C3_vat_summary_partitions_totals_witness :
    basisSum (Totals.mk 200 38 238 [(19, ⟨200, 38⟩)]).summary
        = (Totals.mk 200 38 238 [(19, ⟨200, 38⟩)]).net ∧
      vatSum (Totals.mk 200 38 238 [(19, ⟨200, 38⟩)]).summary
        = (Totals.mk 200 38 238 [(19, ⟨200, 38⟩)]).vat := by
  apply C3_vat_summary_partitions_totals
    [{ description := some "Consulting", quantity := some "2",
       unit_price := some "100.00", vat_rate := some "19" }] false
  have h1 := decodeField_eval (some "2") 2 0 (by decide)
  have h2 := decodeField_eval (some "100.00") 10000 2 (by decide)
  have h3 := decodeField_eval (some "19") 19 0 (by decide)
  norm_num at h1 h2 h3
  simp [calculate_totals, calculate_totals_aux, itemRate, h1, h2, h3, ok_bind,
    addToBucket, vatSum]
  norm_num [quantize2HU, rhu, Totals.mk.injEq]

/-!  Claim C10. -/

/-- C10: the small-business behaviour keys on the test
form_data.get('is_small_business') == 'true' (written identically in
_draw_header_and_footer, _build_reportlab_pdf and
_generate_zugferd_xml, embedded as FormData.isSmallBusiness): it is
enabled exactly when the form field holds the string "true"; a missing
field, a Python boolean or any other string (such as "True" or "on")
disables it. -/
theorem C10_small_business_flag_iff (fd : FormData) :
    fd.isSmallBusiness = true ↔ fd.is_small_business = some (FormVal.s "true") := by
  unfold FormData.isSmallBusiness
  cases hv : fd.is_small_business with
  | none => simp [pyEqTrueStr]
  | some v =>
    cases v with
    | s w => simp [pyEqTrueStr]
    | b b0 => simp [pyEqTrueStr]

/-!  Claim C2. -/

theorem quantize2HU_zero : quantize2HU 0 = 0 := by norm_num [quantize2HU, rhu]

/-- Under the small-business flag every line enters the summary at rate
0 with a zero rounded line VAT, so the summary only ever holds the
0-rate bucket with zero VAT. -/
theorem calculate_totals_aux_sb (l : List Item) :
    ∀ (n0 : ℚ) (s0 : VatSummary) (n : ℚ) (s : VatSummary),
      calculate_totals_aux true l n0 s0 = Except.ok (n, s) →
      (∀ x ∈ s0, x.1 = 0 ∧ x.2.vat = 0) → s0.length ≤ 1 →
      (∀ x ∈ s, x.1 = 0 ∧ x.2.vat = 0) ∧ s.length ≤ 1 := by
  induction l with
  | nil =>
    intro n0 s0 n s h hall hlen
    simp [calculate_totals_aux] at h
    obtain ⟨rfl, rfl⟩ := h
    exact ⟨hall, hlen⟩
  | cons it rest ih =>
    intro n0 s0 n s h hall hlen
    simp only [calculate_totals_aux] at h
    cases hq : decodeField it.quantity with
    | error e => rw [hq, error_bind] at h; exact absurd h (by simp)
    | ok q =>
      rw [hq, ok_bind] at h
      cases hp : decodeField it.unit_price with
      | error e => rw [hp, error_bind] at h; exact absurd h (by simp)
      | ok p =>
        rw [hp, ok_bind] at h
        have hr : itemRate true it = Except.ok 0 := rfl
        rw [hr, ok_bind] at h
        have hz : quantize2HU (q * p * ((0 : ℚ) / 100)) = 0 := by
          rw [show q * p * ((0 : ℚ) / 100) = 0 by ring, quantize2HU_zero]
        rw [hz] at h
        have hall2 : ∀ x ∈ addToBucket s0 0 (q * p) 0, x.1 = 0 ∧ x.2.vat = 0 := by
          intro x hx
          match s0, hall, hx with
          | [], hall, hx => simp [addToBucket] at hx; simp [hx]
          | (r0, b) :: rest0, hall, hx =>
            have hr01 : r0 = 0 := (hall (r0, b) (by simp)).1
            have hr02 : b.vat = 0 := (hall (r0, b) (by simp)).2
            subst hr01
            simp [addToBucket] at hx
            rcases hx with hx | hx
            · simp [hx, hr02]
            · exact hall _ (by simp [hx])
        have hlen2 : (addToBucket s0 0 (q * p) 0).length ≤ 1 := by
          match s0, hall, hlen with
          | [], hall, hlen => simp [addToBucket]
          | (r0, b) :: rest0, hall, hlen =>
            have hr0 : r0 = 0 := (hall (r0, b) (by simp)).1
            rw [hr0]
            simpa [addToBucket] using hlen
        exact ih _ _ _ _ h hall2 hlen2

theorem vatSum_of_all_zero (s : VatSummary) (h : ∀ x ∈ s, x.1 = 0 ∧ x.2.vat = 0) :
    vatSum s = 0 := by
  induction s with
  | nil => rfl
  | cons y rest ih =>
    have hy := h y (by simp)
    have hr : vatSum rest = 0 := ih (fun x hx => h x (by simp [hx]))
    simp [vatSum] at hr ⊢
    simp [hy.2, hr]

/-- C2 amended: when is_small_business is true, _calculate_totals uses
rate 0 for every item (every bucket of the returned summary carries rate
0), the total VAT is exactly 0 and gross equals net; but the returned
vat_summary is NOT empty for a non-empty item list: all lines collapse
into a single 0-rate bucket with zero VAT (the summary holds at most
that one bucket). -/
theorem C2_small_business_zero_vat (items : List Item) (t : Totals)
    (h : calculate_totals items true = Except.ok t) :
    t.vat = 0 ∧ t.gross = t.net ∧
      (∀ x ∈ t.summary, x.1 = 0 ∧ x.2.vat = 0) ∧ t.summary.length ≤ 1 := by
  obtain ⟨n, s, haux, rfl⟩ := calculate_totals_ok items true t h
  have hs := calculate_totals_aux_sb items 0 [] n s haux (by simp) (by simp)
  have hv : vatSum s = 0 := vatSum_of_all_zero s hs.1
  exact ⟨hv, by simp [hv], hs.1, hs.2⟩

/-- Witness for C2 at the specification's small-business example. -/
theorem C2_small_business_zero_vat_witness :
    (Totals.mk 200 0 200 [(0, ⟨200, 0⟩)]).vat = 0 ∧
      (Totals.mk 200 0 200 [(0, ⟨200, 0⟩)]).gross = (Totals.mk 200 0 200 [(0, ⟨200, 0⟩)]).net ∧
      (∀ x ∈ (Totals.mk 200 0 200 [(0, ⟨200, 0⟩)]).summary, x.1 = 0 ∧ x.2.vat = 0) ∧
      (Totals.mk 200 0 200 [(0, ⟨200, 0⟩)]).summary.length ≤ 1 := by
  apply C2_small_business_zero_vat
    [{ description := some "Consulting", quantity := some "2",
       unit_price := some "100.00", vat_rate := some "19" }]
  have h1 := decodeField_eval (some "2") 2 0 (by decide)
  have h2 := decodeField_eval (some "100.00") 10000 2 (by decide)
  norm_num at h1 h2
  simp [calculate_totals, calculate_totals_aux, itemRate, h1, h2, ok_bind,
    addToBucket, vatSum]
  norm_num [quantize2HU, rhu, Totals.mk.injEq]

/-- Counterexample to C2 as stated: on the specification's own
small-business example the returned vat_summary is not empty — it holds
the single 0-rate bucket carrying the whole net as basis. -/
theorem C2_counterexample_summary_not_empty :
    ∃ t : Totals,
      calculate_totals
          [{ description := some "Consulting", quantity := some "2",
             unit_price := some "100.00", vat_rate := some "19" }] true
        = Except.ok t ∧ t.summary ≠ [] := by
  refine ⟨⟨200, 0, 200, [(0, ⟨200, 0⟩)]⟩, ?_, by simp⟩
  have h1 := decodeField_eval (some "2") 2 0 (by decide)
  have h2 := decodeField_eval (some "100.00") 10000 2 (by decide)
  norm_num at h1 h2
  simp [calculate_totals, calculate_totals_aux, itemRate, h1, h2, ok_bind,
    addToBucket, vatSum]
  norm_num [quantize2HU, rhu, Totals.mk.injEq]

/-!  Claim C4. -/

theorem floor_half_bound (y : ℚ) : |(⌊y + 1 / 2⌋ : ℚ) - y| ≤ 1 / 2 := by
  have h1 : (⌊y + 1 / 2⌋ : ℚ) ≤ y + 1 / 2 := Int.floor_le _
  have h2 : y + 1 / 2 - 1 < (⌊y + 1 / 2⌋ : ℚ) := Int.sub_one_lt_floor _
  rw [abs_le]
  constructor <;> linarith

/-- One half-up rounding moves a value by at most one half. -/
theorem rhu_bound (y : ℚ) : |(rhu y : ℚ) - y| ≤ 1 / 2 := by
  unfold rhu
  by_cases hy : 0 ≤ y
  · simpa [hy] using floor_half_bound y
  · have h := floor_half_bound (-y)
    have : |(-(⌊-y + 1 / 2⌋ : ℚ)) - y| = |(⌊-y + 1 / 2⌋ : ℚ) - -y| := by
      rw [← abs_neg]
      ring_nf
    simp only [hy, if_false, Int.cast_neg]
    rw [this]
    exact h

/-- Half-up quantization at two places moves a value by at most half a
cent. -/
theorem quantize2HU_err (x : ℚ) : |quantize2HU x - x| ≤ 1 / 200 := by
  unfold quantize2HU
  have h := rhu_bound (x * 100)
  have heq : (rhu (x * 100) : ℚ) / 100 - x = ((rhu (x * 100) : ℚ) - x * 100) / 100 := by
    ring
  rw [heq, abs_div]
  rw [show |(100 : ℚ)| = 100 by norm_num]
  rw [div_le_iff₀ (by norm_num : (0 : ℚ) < 100)]
  calc |(rhu (x * 100) : ℚ) - x * 100| ≤ 1 / 2 := h
  _ = 1 / 200 * 100 := by norm_num

/-- Through the item loop at one uniform rate, the accumulated VAT stays
within half a cent per processed line of the exact VAT on the
accumulated net. -/
theorem calculate_totals_aux_uniform (r : ℚ) (l : List Item) :
    ∀ (n0 : ℚ) (s0 : VatSummary) (n : ℚ) (s : VatSummary),
      (∀ it ∈ l, decodeField it.vat_rate = Except.ok r) →
      calculate_totals_aux false l n0 s0 = Except.ok (n, s) →
      |(vatSum s - vatSum s0) - (n - n0) * (r / 100)| ≤ l.length * (1 / 200) := by
  induction l with
  | nil =>
    intro n0 s0 n s _ h
    simp [calculate_totals_aux] at h
    obtain ⟨rfl, rfl⟩ := h
    simp
  | cons it rest ih =>
    intro n0 s0 n s hr h
    simp only [calculate_totals_aux] at h
    cases hq : decodeField it.quantity with
    | error e => rw [hq, error_bind] at h; exact absurd h (by simp)
    | ok q =>
      rw [hq, ok_bind] at h
      cases hp : decodeField it.unit_price with
      | error e => rw [hp, error_bind] at h; exact absurd h (by simp)
      | ok p =>
        rw [hp, ok_bind] at h
        have hrit : itemRate false it = Except.ok r := by
          simpa [itemRate] using hr it (by simp)
        rw [hrit, ok_bind] at h
        have hrec := ih _ _ _ _ (fun x hx => hr x (by simp [hx])) h
        rw [addToBucket_vatSum] at hrec
        have herr := quantize2HU_err (q * p * (r / 100))
        have habs :
            |(vatSum s - vatSum s0) - (n - n0) * (r / 100)| ≤
              |(vatSum s - (vatSum s0 + quantize2HU (q * p * (r / 100))))
                  - (n - (n0 + q * p)) * (r / 100)|
                + |quantize2HU (q * p * (r / 100)) - q * p * (r / 100)| := by
          have h1 :
              (vatSum s - vatSum s0) - (n - n0) * (r / 100) =
                ((vatSum s - (vatSum s0 + quantize2HU (q * p * (r / 100))))
                    - (n - (n0 + q * p)) * (r / 100))
                  + (quantize2HU (q * p * (r / 100)) - q * p * (r / 100)) := by
            ring
          rw [h1]
          exact abs_add _ _
        have hlen : ((it :: rest).length : ℚ) * (1 / 200) = rest.length * (1 / 200) + 1 / 200 := by
          push_cast [List.length_cons]
          ring
        rw [hlen]
        calc |(vatSum s - vatSum s0) - (n - n0) * (r / 100)|
            ≤ |(vatSum s - (vatSum s0 + quantize2HU (q * p * (r / 100))))
                - (n - (n0 + q * p)) * (r / 100)|
              + |quantize2HU (q * p * (r / 100)) - q * p * (r / 100)| := habs
        _ ≤ rest.length * (1 / 200) + 1 / 200 := add_le_add hrec herr

/-- C4 amended: for a non-empty item list at one uniform VAT rate (not
small business), the gross differs from net + net*rate/100 by at most
half a cent per line (0.005 times the number of items), per-line VAT
being rounded half-up at two places; the one-cent bound of the claim
only holds for up to two lines. -/
theorem C4_uniform_rate_gross_bound (items : List Item) (r : ℚ) (t : Totals)
    (hu : ∀ it ∈ items, decodeField it.vat_rate = Except.ok r)
    (_hne : items ≠ [])
    (h : calculate_totals items false = Except.ok t) :
    |t.gross - (t.net + t.net * r / 100)| ≤ items.length * (1 / 200) := by
  obtain ⟨n, s, haux, rfl⟩ := calculate_totals_ok items false t h
  have hb := calculate_totals_aux_uniform r items 0 [] n s hu haux
  have h0 : vatSum ([] : VatSummary) = 0 := rfl
  rw [h0] at hb
  have heq : (n + vatSum s) - (n + n * r / 100) = (vatSum s - 0) - (n - 0) * (r / 100) := by
    ring
  show |(n + vatSum s) - (n + n * r / 100)| ≤ items.length * (1 / 200)
  rw [heq]
  exact hb

/-- Witness for the amended C4: three half-euro lines at one percent. -/
theorem C4_uniform_rate_gross_bound_witness :
    |(Totals.mk (3 / 2) (3 / 100) (153 / 100) [(1, ⟨3 / 2, 3 / 100⟩)]).gross
        - ((Totals.mk (3 / 2) (3 / 100) (153 / 100) [(1, ⟨3 / 2, 3 / 100⟩)]).net
          + (Totals.mk (3 / 2) (3 / 100) (153 / 100) [(1, ⟨3 / 2, 3 / 100⟩)]).net * 1 / 100)|
      ≤ ([⟨none, some "1", some "0.50", some "1"⟩, ⟨none, some "1", some "0.50", some "1"⟩,
          ⟨none, some "1", some "0.50", some "1"⟩] : List Item).length * (1 / 200) := by
  apply C4_uniform_rate_gross_bound
  · intro it hit
    have h3 := decodeField_eval (some "1") 1 0 (by decide)
    norm_num at h3
    simp at hit
    rw [hit]
    exact h3
  · simp
  · have h1 := decodeField_eval (some "1") 1 0 (by decide)
    have h2 := decodeField_eval (some "0.50") 50 2 (by decide)
    norm_num at h1 h2
    simp [calculate_totals, calculate_totals_aux, itemRate, h1, h2, ok_bind,
      addToBucket, vatSum]
    norm_num [quantize2HU, rhu, Totals.mk.injEq]

/-- Counterexample to C4 as stated: three lines of 0.50 at a uniform 1
percent rate give net 1.50 and gross 1.53 (each exact line VAT of
0.005 rounds half-up to 0.01), and |1.53 - 1.515| = 0.015 exceeds one
cent. -/
theorem C4_counterexample_three_lines :
    ∃ t : Totals,
      calculate_totals
          [⟨none, some "1", some "0.50", some "1"⟩, ⟨none, some "1", some "0.50", some "1"⟩,
            ⟨none, some "1", some "0.50", some "1"⟩] false
        = Except.ok t ∧
      (∀ it ∈ ([⟨none, some "1", some "0.50", some "1"⟩, ⟨none, some "1", some "0.50", some "1"⟩,
          ⟨none, some "1", some "0.50", some "1"⟩] : List Item),
        decodeField it.vat_rate = Except.ok 1) ∧
      ¬ |t.gross - (t.net + t.net * 1 / 100)| ≤ 1 / 100 := by
  refine ⟨⟨3 / 2, 3 / 100, 153 / 100, [(1, ⟨3 / 2, 3 / 100⟩)]⟩, ?_, ?_, ?_⟩
  · have h1 := decodeField_eval (some "1") 1 0 (by decide)
    have h2 := decodeField_eval (some "0.50") 50 2 (by decide)
    norm_num at h1 h2
    simp [calculate_totals, calculate_totals_aux, itemRate, h1, h2, ok_bind,
      addToBucket, vatSum]
    norm_num [quantize2HU, rhu, Totals.mk.injEq]
  · intro it hit
    have h3 := decodeField_eval (some "1") 1 0 (by decide)
    norm_num at h3
    simp at hit
    rw [hit]
    exact h3
  · show ¬ |(153 : ℚ) / 100 - (3 / 2 + (3 / 2) * 1 / 100)| ≤ 1 / 100
    rw [show (153 : ℚ) / 100 - (3 / 2 + (3 / 2) * 1 / 100) = 3 / 200 by norm_num]
    rw [abs_of_pos (by norm_num : (0 : ℚ) < 3 / 200)]
    norm_num

/-!  Claim C5. -/

/-- A numeric item field whose effective string (after the empty/missing
defaulting) is not a valid decimal literal. -/
def malformedNum (f : Option String) : Bool := (parseDecRep (fieldStr f)).isNone

/-- Whether processing this item raises the decimal parse error: a
malformed quantity or unit price always does; a malformed VAT rate only
when the small-business flag is off (the rate string is never parsed
when it is on). -/
def itemTriggersError (sb : Bool) (it : Item) : Bool :=
  malformedNum it.quantity || malformedNum it.unit_price || (!sb && malformedNum it.vat_rate)

theorem decodeField_error_of_malformed (f : Option String) (h : malformedNum f = true) :
    decodeField f = Except.error PyError.parseError := by
  apply decodeField_fail
  simpa [malformedNum, Option.isNone_iff_eq_none] using h

theorem decodeField_ok_of_wellformed (f : Option String) (h : malformedNum f = false) :
    ∃ q, decodeField f = Except.ok q := by
  simp [malformedNum, Option.isNone] at h
  match hrep : parseDecRep (fieldStr f), h with
  | some x, h => exact ⟨repVal x, by simp [decodeField, parseDec, hrep]⟩

/-- The item loop fails with the parse error whenever some item in the
list triggers it, whatever the accumulators hold. -/
theorem calculate_totals_aux_error (sb : Bool) (l : List Item)
    (htrig : ∃ it ∈ l, itemTriggersError sb it = true) :
    ∀ (n0 : ℚ) (s0 : VatSummary),
      calculate_totals_aux sb l n0 s0 = Except.error PyError.parseError := by
  induction l with
  | nil => simp at htrig
  | cons it rest ih =>
    intro n0 s0
    simp only [calculate_totals_aux]
    by_cases hq : malformedNum it.quantity
    · rw [decodeField_error_of_malformed _ hq, error_bind]
    · obtain ⟨q, hqok⟩ := decodeField_ok_of_wellformed _ (by simpa using hq)
      rw [hqok, ok_bind]
      by_cases hp : malformedNum it.unit_price
      · rw [decodeField_error_of_malformed _ hp, error_bind]
      · obtain ⟨p, hpok⟩ := decodeField_ok_of_wellformed _ (by simpa using hp)
        rw [hpok, ok_bind]
        by_cases hsb : sb
        · have hrok : itemRate sb it = Except.ok 0 := by simp [itemRate, hsb]
          rw [hrok, ok_bind]
          apply ih
          obtain ⟨w, hw, hwt⟩ := htrig
          rcases List.mem_cons.mp hw with hweq | hwrest
          · exfalso
            rw [hweq] at hwt
            simp [itemTriggersError, hsb, hq, hp] at hwt
          · exact ⟨w, hwrest, hwt⟩
        · by_cases hr : malformedNum it.vat_rate
          · have : itemRate sb it = Except.error PyError.parseError := by
              simp [itemRate, hsb, decodeField_error_of_malformed _ hr]
            rw [this, error_bind]
          · obtain ⟨r, hrok0⟩ := decodeField_ok_of_wellformed it.vat_rate (by simpa using hr)
            have hrok : itemRate sb it = Except.ok r := by simp [itemRate, hsb, hrok0]
            rw [hrok, ok_bind]
            apply ih
            obtain ⟨w, hw, hwt⟩ := htrig
            rcases List.mem_cons.mp hw with hweq | hwrest
            · exfalso
              rw [hweq] at hwt
              simp [itemTriggersError, hsb, hq, hp, hr] at hwt
            · exact ⟨w, hwrest, hwt⟩

theorem calculate_totals_error (items : List Item) (sb : Bool)
    (htrig : ∃ it ∈ items, itemTriggersError sb it = true) :
    calculate_totals items sb = Except.error PyError.parseError := by
  unfold calculate_totals
  rw [calculate_totals_aux_error sb items htrig, error_bind]

/-- C5 amended: the pipeline raises the decimal ParseError — producing
no output buffer — whenever some item has a malformed quantity or unit
price, or a malformed VAT rate while the small-business flag is off; a
malformed VAT rate under the small-business flag is never parsed and
raises nothing (see the counterexample). -/
theorem C5_malformed_numeric_raises (fd : FormData) (items : List Item) (today : String)
    (iccExists : Bool) (renderedPages : List String)
    (htrig : ∃ it ∈ items, itemTriggersError fd.isSmallBusiness it = true) :
    generate_invoice_pdf fd items today iccExists renderedPages
      = Except.error PyError.parseError := by
  unfold generate_invoice_pdf build_reportlab_pdf
  simp only [calculate_totals_error items fd.isSmallBusiness htrig, error_bind]

/-- Witness for the amended C5: a malformed quantity string "abc" makes
the whole pipeline fail with the parse error. -/
theorem C5_malformed_numeric_raises_witness :
    generate_invoice_pdf {} [{ quantity := some "abc", unit_price := some "1" }]
        "2026-01-01" true ["page1"]
      = Except.error PyError.parseError := by
  apply C5_malformed_numeric_raises
  refine ⟨{ quantity := some "abc", unit_price := some "1" }, by simp, by decide⟩

/-- Counterexample to C5 as stated: with the small-business flag set and
a malformed VAT rate string "abc" (a field the claim covers), the rate
is never parsed and the pipeline succeeds, producing an output buffer. -/
theorem C5_counterexample_small_business_rate :
    parseDec "abc" = none ∧
      ∃ out, generate_invoice_pdf { is_small_business := some (FormVal.s "true") }
          [{ quantity := some "1", unit_price := some "1", vat_rate := some "abc" }]
          "2026-01-01" true ["page1"]
        = Except.ok out := by
  constructor
  · simp [parseDec, show parseDecRep "abc" = none from by decide]
  · have h1 := decodeField_eval (some "1") 1 0 (by decide)
    norm_num at h1
    have hsb : FormData.isSmallBusiness { is_small_business := some (FormVal.s "true") } = true := by
      simp [FormData.isSmallBusiness, pyEqTrueStr]
    have hcalc : calculate_totals
        [{ quantity := some "1", unit_price := some "1", vat_rate := some "abc" }] true
        = Except.ok ⟨1, 0, 1, [(0, ⟨1, 0⟩)]⟩ := by
      simp [calculate_totals, calculate_totals_aux, itemRate, h1, ok_bind, addToBucket, vatSum]
      norm_num [quantize2HU, rhu, Totals.mk.injEq]
    have hrow : buildItemRow true
        { quantity := some "1", unit_price := some "1", vat_rate := some "abc" }
        = Except.ok (PdfRow.item "" 1 1 1) := by
      simp [buildItemRow, itemRate, h1, ok_bind]
      norm_num [quantize2HE, rhe]
    have hmap : List.mapM (buildItemRow true)
        [{ quantity := some "1", unit_price := some "1", vat_rate := some "abc" }]
        = Except.ok [PdfRow.item "" 1 1 1] := by
      rw [List.mapM_cons, hrow, List.mapM_nil]
      rfl
    have hmap2 : List.mapM.loop (buildItemRow true)
        [{ quantity := some "1", unit_price := some "1", vat_rate := some "abc" }] []
        = Except.ok [PdfRow.item "" 1 1 1] := hmap
    have hbuild : build_reportlab_pdf { is_small_business := some (FormVal.s "true") }
        [{ quantity := some "1", unit_price := some "1", vat_rate := some "abc" }]
        = Except.ok ⟨[PdfRow.header ["Beschreibung", "Menge", "Einzelpreis", "Gesamt"],
            PdfRow.item "" 1 1 1, PdfRow.netto 1, PdfRow.gross 1], disclaimer⟩ := by
      simp [build_reportlab_pdf, hsb, hcalc, hmap, hmap2, ok_bind, footerNotes,
        FormData.isSmallBusiness, pyEqTrueStr]
      norm_num [quantize2HE, rhe]
    have hdate : parseYMD "2026-01-01" = some (2026, 1, 1) := by decide
    have hlines : buildXmlLines true 1
        [{ quantity := some "1", unit_price := some "1", vat_rate := some "abc" }]
        = Except.ok [⟨1, "Beschreibung", 1, "O", 0, 1, 1⟩] := by
      simp [buildXmlLines, buildXmlLine, itemRate, h1, ok_bind, get_tax_category_code]
      norm_num [quantize2HE, quantize4HE, quantize2HU, rhe, rhu]
    have hxml : generate_zugferd_xml { is_small_business := some (FormVal.s "true") }
        [{ quantity := some "1", unit_price := some "1", vat_rate := some "abc" }]
        "2026-01-01"
        = Except.ok ⟨"INV-GENERATED", (2026, 1, 1), [⟨1, "Beschreibung", 1, "O", 0, 1, 1⟩],
            [⟨0, 1, "O", 0⟩], 1, 1, 0, 1, 1⟩ := by
      simp [generate_zugferd_xml, hdate, hsb, hcalc, hlines, ok_bind, get_tax_category_code]
      norm_num [quantize2HE, rhe]
    exact ⟨_, by rw [generate_invoice_pdf, hbuild, ok_bind, hxml, ok_bind]⟩

/-!  Claim C6. -/

/-- C6, evaluated at the failing input: numeric item fields that are
empty strings or absent are indeed read as zero without an error, but an
optional invoice_date that is present as the empty string is fed to
strptime (the .get default only covers a missing key) and the whole
pipeline fails with the ValueError — while the same form without the
invoice_date key succeeds using the current date. -/
theorem C6_empty_invoice_date_raises :
    decodeField (some "") = Except.ok 0 ∧ decodeField none = Except.ok 0 ∧
      generate_invoice_pdf { invoice_date := some "" }
          [{ quantity := some "1", unit_price := some "1", vat_rate := some "19" }]
          "2026-02-03" true ["page1"]
        = Except.error PyError.valueError ∧
      ∃ out, generate_invoice_pdf {}
          [{ quantity := some "1", unit_price := some "1", vat_rate := some "19" }]
          "2026-02-03" true ["page1"]
        = Except.ok out := by
  have hempty := decodeField_eval (some "") 0 0 (by decide)
  have hnone := decodeField_eval none 0 0 (by decide)
  norm_num at hempty hnone
  have h1 := decodeField_eval (some "1") 1 0 (by decide)
  have h19 := decodeField_eval (some "19") 19 0 (by decide)
  norm_num at h1 h19
  have hcalc : calculate_totals
      [{ quantity := some "1", unit_price := some "1", vat_rate := some "19" }] false
      = Except.ok ⟨1, 19 / 100, 119 / 100, [(19, ⟨1, 19 / 100⟩)]⟩ := by
    simp [calculate_totals, calculate_totals_aux, itemRate, h1, h19, ok_bind,
      addToBucket, vatSum]
    norm_num [quantize2HU, rhu, Totals.mk.injEq]
  have hrow : buildItemRow false
      { quantity := some "1", unit_price := some "1", vat_rate := some "19" }
      = Except.ok (PdfRow.item "" 1 1 (119 / 100)) := by
    simp [buildItemRow, itemRate, h1, h19, ok_bind]
    norm_num [quantize2HE, rhe]
  have hmap : List.mapM (buildItemRow false)
      [{ quantity := some "1", unit_price := some "1", vat_rate := some "19" }]
      = Except.ok [PdfRow.item "" 1 1 (119 / 100)] := by
    rw [List.mapM_cons, hrow, List.mapM_nil]
    rfl
  have hmap2 : List.mapM.loop (buildItemRow false)
      [{ quantity := some "1", unit_price := some "1", vat_rate := some "19" }] []
      = Except.ok [PdfRow.item "" 1 1 (119 / 100)] := hmap
  refine ⟨hempty, hnone, ?_, ?_⟩
  · have hsbf : FormData.isSmallBusiness { invoice_date := some "" } = false := by
      simp [FormData.isSmallBusiness, pyEqTrueStr]
    have hbuild : build_reportlab_pdf { invoice_date := some "" }
        [{ quantity := some "1", unit_price := some "1", vat_rate := some "19" }]
        = Except.ok ⟨[PdfRow.header ["Beschreibung", "Menge", "Einzelpreis", "Gesamt"],
            PdfRow.item "" 1 1 (119 / 100), PdfRow.netto 1,
            PdfRow.vatRate 19 (19 / 100), PdfRow.gross (119 / 100)], ""⟩ := by
      simp [build_reportlab_pdf, hsbf, hcalc, hmap, hmap2, ok_bind, footerNotes,
        FormData.isSmallBusiness, pyEqTrueStr, vatRows, sortByRate, insertByRate]
      norm_num [quantize2HE, rhe]
    have hxmlerr : generate_zugferd_xml { invoice_date := some "" }
        [{ quantity := some "1", unit_price := some "1", vat_rate := some "19" }]
        "2026-02-03"
        = Except.error PyError.valueError := by
      simp [generate_zugferd_xml, show parseYMD "" = none from by decide, error_bind]
    rw [generate_invoice_pdf, hbuild, ok_bind, hxmlerr, error_bind]
  · have hsbf : FormData.isSmallBusiness ({} : FormData) = false := by
      simp [FormData.isSmallBusiness, pyEqTrueStr]
    have hbuild : build_reportlab_pdf {}
        [{ quantity := some "1", unit_price := some "1", vat_rate := some "19" }]
        = Except.ok ⟨[PdfRow.header ["Beschreibung", "Menge", "Einzelpreis", "Gesamt"],
            PdfRow.item "" 1 1 (119 / 100), PdfRow.netto 1,
            PdfRow.vatRate 19 (19 / 100), PdfRow.gross (119 / 100)], ""⟩ := by
      simp [build_reportlab_pdf, hsbf, hcalc, hmap, hmap2, ok_bind, footerNotes,
        FormData.isSmallBusiness, pyEqTrueStr, vatRows, sortByRate, insertByRate]
      norm_num [quantize2HE, rhe]
    have hdate : parseYMD "2026-02-03" = some (2026, 2, 3) := by decide
    have hlines : buildXmlLines false 1
        [{ quantity := some "1", unit_price := some "1", vat_rate := some "19" }]
        = Except.ok [⟨1, "Beschreibung", 1, "S", 19, 1, 1⟩] := by
      simp [buildXmlLines, buildXmlLine, itemRate, h1, h19, ok_bind, get_tax_category_code]
      norm_num [quantize2HE, quantize4HE, quantize2HU, rhe, rhu]
    have hxml : generate_zugferd_xml {}
        [{ quantity := some "1", unit_price := some "1", vat_rate := some "19" }]
        "2026-02-03"
        = Except.ok ⟨"INV-GENERATED", (2026, 2, 3), [⟨1, "Beschreibung", 1, "S", 19, 1, 1⟩],
            [⟨19 / 100, 1, "S", 19⟩], 1, 1, 19 / 100, 119 / 100, 119 / 100⟩ := by
      simp [generate_zugferd_xml, hdate, hsbf, hcalc, hlines, ok_bind, get_tax_category_code]
      norm_num [quantize2HE, rhe]
    exact ⟨_, by rw [generate_invoice_pdf, hbuild, ok_bind, hxml, ok_bind]⟩

/-!  Claim C1. -/

/-- C1: whenever the renderer and the serializer both succeed on the
same form data and items, the grand total displayed in the PDF's bold
gross row and the GrandTotalAmount element of the trade-document XML
are the same decimal value: both are the gross of the shared
_calculate_totals result, rounded at two places by the same default
context rounding (the .2f display format and the plain quantize). -/
theorem C1_pdf_xml_grand_total_agree (fd : FormData) (items : List Item) (today : String)
    (r : RenderedPdf) (x : ZugferdXml)
    (h1 : build_reportlab_pdf fd items = Except.ok r)
    (h2 : generate_zugferd_xml fd items today = Except.ok x) :
    pdfGrossDisplayed r = some x.grandTotalAmount := by
  unfold build_reportlab_pdf at h1
  unfold generate_zugferd_xml at h2
  cases hc : calculate_totals items fd.isSmallBusiness with
  | error e =>
    simp only [hc, error_bind] at h1
    exact absurd h1 (by simp)
  | ok t =>
    simp only [hc, ok_bind] at h1
    cases hm : List.mapM (buildItemRow fd.isSmallBusiness) items with
    | error e =>
      simp only [hm, error_bind] at h1
      exact absurd h1 (by simp)
    | ok irows =>
      simp only [hm, ok_bind, Except.ok.injEq] at h1
      cases hd : parseYMD (fd.invoice_date.getD today) with
      | none =>
        simp only [hd, error_bind] at h2
        exact absurd h2 (by simp)
      | some d =>
        simp only [hd, ok_bind, hc] at h2
        cases hl : buildXmlLines fd.isSmallBusiness 1 items with
        | error e =>
          simp only [hl, error_bind] at h2
          exact absurd h2 (by simp)
        | ok ls =>
          simp only [hl, ok_bind, Except.ok.injEq] at h2
          subst h1
          subst h2
          have hlast :
              ((PdfRow.header ["Beschreibung", "Menge", "Einzelpreis", "Gesamt"] :: irows
                  ++ [PdfRow.netto (quantize2HE t.net)]
                  ++ (if fd.isSmallBusiness then [] else vatRows t.summary))
                  ++ [PdfRow.gross (quantize2HE t.gross)]).getLast?
                = some (PdfRow.gross (quantize2HE t.gross)) := by
            rw [List.getLast?_append_cons]
            rfl
          simp only [pdfGrossDisplayed]
          rw [hlast]

/-- Witness for C1: the 19-percent single-item invoice displays 1.19 in
the PDF and writes the same value into the XML grand total. -/
theorem C1_pdf_xml_grand_total_agree_witness :
    pdfGrossDisplayed ⟨[PdfRow.header ["Beschreibung", "Menge", "Einzelpreis", "Gesamt"],
        PdfRow.item "" 1 1 (119 / 100), PdfRow.netto 1,
        PdfRow.vatRate 19 (19 / 100), PdfRow.gross (119 / 100)], ""⟩
      = some (ZugferdXml.mk "INV-GENERATED" (2026, 2, 3)
          [⟨1, "Beschreibung", 1, "S", 19, 1, 1⟩] [⟨19 / 100, 1, "S", 19⟩]
          1 1 (19 / 100) (119 / 100) (119 / 100)).grandTotalAmount := by
  apply C1_pdf_xml_grand_total_agree {}
    [{ quantity := some "1", unit_price := some "1", vat_rate := some "19" }] "2026-02-03"
  · have h1 := decodeField_eval (some "1") 1 0 (by decide)
    have h19 := decodeField_eval (some "19") 19 0 (by decide)
    norm_num at h1 h19
    have hsbf : FormData.isSmallBusiness ({} : FormData) = false := by
      simp [FormData.isSmallBusiness, pyEqTrueStr]
    have hcalc : calculate_totals
        [{ quantity := some "1", unit_price := some "1", vat_rate := some "19" }] false
        = Except.ok ⟨1, 19 / 100, 119 / 100, [(19, ⟨1, 19 / 100⟩)]⟩ := by
      simp [calculate_totals, calculate_totals_aux, itemRate, h1, h19, ok_bind,
        addToBucket, vatSum]
      norm_num [quantize2HU, rhu, Totals.mk.injEq]
    have hrow : buildItemRow false
        { quantity := some "1", unit_price := some "1", vat_rate := some "19" }
        = Except.ok (PdfRow.item "" 1 1 (119 / 100)) := by
      simp [buildItemRow, itemRate, h1, h19, ok_bind]
      norm_num [quantize2HE, rhe]
    have hmap : List.mapM (buildItemRow false)
        [{ quantity := some "1", unit_price := some "1", vat_rate := some "19" }]
        = Except.ok [PdfRow.item "" 1 1 (119 / 100)] := by
      rw [List.mapM_cons, hrow, List.mapM_nil]
      rfl
    have hmap2 : List.mapM.loop (buildItemRow false)
        [{ quantity := some "1", unit_price := some "1", vat_rate := some "19" }] []
        = Except.ok [PdfRow.item "" 1 1 (119 / 100)] := hmap
    simp [build_reportlab_pdf, hsbf, hcalc, hmap, hmap2, ok_bind, footerNotes,
      FormData.isSmallBusiness, pyEqTrueStr, vatRows, sortByRate, insertByRate]
    norm_num [quantize2HE, rhe]
  · have h1 := decodeField_eval (some "1") 1 0 (by decide)
    have h19 := decodeField_eval (some "19") 19 0 (by decide)
    norm_num at h1 h19
    have hsbf : FormData.isSmallBusiness ({} : FormData) = false := by
      simp [FormData.isSmallBusiness, pyEqTrueStr]
    have hcalc : calculate_totals
        [{ quantity := some "1", unit_price := some "1", vat_rate := some "19" }] false
        = Except.ok ⟨1, 19 / 100, 119 / 100, [(19, ⟨1, 19 / 100⟩)]⟩ := by
      simp [calculate_totals, calculate_totals_aux, itemRate, h1, h19, ok_bind,
        addToBucket, vatSum]
      norm_num [quantize2HU, rhu, Totals.mk.injEq]
    have hdate : parseYMD "2026-02-03" = some (2026, 2, 3) := by decide
    have hlines : buildXmlLines false 1
        [{ quantity := some "1", unit_price := some "1", vat_rate := some "19" }]
        = Except.ok [⟨1, "Beschreibung", 1, "S", 19, 1, 1⟩] := by
      simp [buildXmlLines, buildXmlLine, itemRate, h1, h19, ok_bind, get_tax_category_code]
      norm_num [quantize2HE, quantize4HE, quantize2HU, rhe, rhu]
    simp [generate_zugferd_xml, hdate, hsbf, hcalc, hlines, ok_bind, get_tax_category_code]
    norm_num [quantize2HE, rhe]

/-!  Claim C7. -/

/-- A successful serializer run reports the gross of the shared totals
computation as its grand total. -/
theorem generate_zugferd_xml_grand (fd : FormData) (items : List Item) (today : String)
    (x : ZugferdXml) (h : generate_zugferd_xml fd items today = Except.ok x) :
    ∃ t : Totals, calculate_totals items fd.isSmallBusiness = Except.ok t ∧
      x.grandTotalAmount = quantize2HE t.gross := by
  unfold generate_zugferd_xml at h
  cases hd : parseYMD (fd.invoice_date.getD today) with
  | none =>
    simp only [hd, error_bind] at h
    exact absurd h (by simp)
  | some d =>
    simp only [hd, ok_bind] at h
    cases hc : calculate_totals items fd.isSmallBusiness with
    | error e =>
      simp only [hc, error_bind] at h
      exact absurd h (by simp)
    | ok t =>
      simp only [hc, ok_bind] at h
      cases hl : buildXmlLines fd.isSmallBusiness 1 items with
      | error e =>
        simp only [hl, error_bind] at h
        exact absurd h (by simp)
      | ok ls =>
        simp only [hl, ok_bind, Except.ok.injEq] at h
        subst h
        exact ⟨t, rfl, rfl⟩

/-- C7: every successful pipeline run returns a container holding
exactly one embedded file, named "factur-x.xml", registered both in the
embedded-files name tree and in the associated-files array, and the
attached trade document's GrandTotalAmount is the totals engine's gross
at two places. -/
theorem C7_single_facturx_attachment (fd : FormData) (items : List Item) (today : String)
    (iccExists : Bool) (renderedPages : List String) (out : GeneratedInvoice)
    (h : generate_invoice_pdf fd items today iccExists renderedPages = Except.ok out) :
    ∃ fs : FileSpec,
      out.doc.embeddedFiles = [("factur-x.xml", fs)] ∧
      out.doc.af = [fs] ∧ fs.f = "factur-x.xml" ∧
      generate_zugferd_xml fd items today = Except.ok fs.ef ∧
      ∃ t : Totals, calculate_totals items fd.isSmallBusiness = Except.ok t ∧
        fs.ef.grandTotalAmount = quantize2HE t.gross := by
  unfold generate_invoice_pdf at h
  cases hb : build_reportlab_pdf fd items with
  | error e =>
    simp only [hb, error_bind] at h
    exact absurd h (by simp)
  | ok v =>
    simp only [hb, ok_bind] at h
    cases hx : generate_zugferd_xml fd items today with
    | error e =>
      simp only [hx, error_bind] at h
      exact absurd h (by simp)
    | ok x =>
      simp only [hx, ok_bind, Except.ok.injEq] at h
      subst h
      obtain ⟨t, hc, hg⟩ := generate_zugferd_xml_grand fd items today x hx
      refine ⟨⟨"factur-x.xml", "Factur-X Invoice", "Data", x⟩, ?_, ?_, rfl, rfl, t, hc, hg⟩
      · simp [make_pdfa_compliant]
      · simp [make_pdfa_compliant]

/-- Witness for C7 at the 19-percent single-item invoice. -/
theorem C7_single_facturx_attachment_witness :
    ∃ fs : FileSpec,
      (GeneratedInvoice.mk
          ⟨[PdfRow.header ["Beschreibung", "Menge", "Einzelpreis", "Gesamt"],
            PdfRow.item "" 1 1 (119 / 100), PdfRow.netto 1,
            PdfRow.vatRate 19 (19 / 100), PdfRow.gross (119 / 100)], ""⟩
          (make_pdfa_compliant (rendererOutputDoc ["page1"])
            ⟨"INV-GENERATED", (2026, 2, 3), [⟨1, "Beschreibung", 1, "S", 19, 1, 1⟩],
              [⟨19 / 100, 1, "S", 19⟩], 1, 1, 19 / 100, 119 / 100, 119 / 100⟩
            {} true)).doc.embeddedFiles = [("factur-x.xml", fs)] ∧
      (GeneratedInvoice.mk
          ⟨[PdfRow.header ["Beschreibung", "Menge", "Einzelpreis", "Gesamt"],
            PdfRow.item "" 1 1 (119 / 100), PdfRow.netto 1,
            PdfRow.vatRate 19 (19 / 100), PdfRow.gross (119 / 100)], ""⟩
          (make_pdfa_compliant (rendererOutputDoc ["page1"])
            ⟨"INV-GENERATED", (2026, 2, 3), [⟨1, "Beschreibung", 1, "S", 19, 1, 1⟩],
              [⟨19 / 100, 1, "S", 19⟩], 1, 1, 19 / 100, 119 / 100, 119 / 100⟩
            {} true)).doc.af = [fs] ∧ fs.f = "factur-x.xml" ∧
      generate_zugferd_xml {}
          [{ quantity := some "1", unit_price := some "1", vat_rate := some "19" }]
          "2026-02-03"
        = Except.ok fs.ef ∧
      ∃ t : Totals,
        calculate_totals [{ quantity := some "1", unit_price := some "1", vat_rate := some "19" }]
            (FormData.isSmallBusiness {}) = Except.ok t ∧
        fs.ef.grandTotalAmount = quantize2HE t.gross := by
  apply C7_single_facturx_attachment {}
    [{ quantity := some "1", unit_price := some "1", vat_rate := some "19" }]
    "2026-02-03" true ["page1"]
  have h1 := decodeField_eval (some "1") 1 0 (by decide)
  have h19 := decodeField_eval (some "19") 19 0 (by decide)
  norm_num at h1 h19
  have hsbf : FormData.isSmallBusiness ({} : FormData) = false := by
    simp [FormData.isSmallBusiness, pyEqTrueStr]
  have hcalc : calculate_totals
      [{ quantity := some "1", unit_price := some "1", vat_rate := some "19" }] false
      = Except.ok ⟨1, 19 / 100, 119 / 100, [(19, ⟨1, 19 / 100⟩)]⟩ := by
    simp [calculate_totals, calculate_totals_aux, itemRate, h1, h19, ok_bind,
      addToBucket, vatSum]
    norm_num [quantize2HU, rhu, Totals.mk.injEq]
  have hrow : buildItemRow false
      { quantity := some "1", unit_price := some "1", vat_rate := some "19" }
      = Except.ok (PdfRow.item "" 1 1 (119 / 100)) := by
    simp [buildItemRow, itemRate, h1, h19, ok_bind]
    norm_num [quantize2HE, rhe]
  have hmap : List.mapM (buildItemRow false)
      [{ quantity := some "1", unit_price := some "1", vat_rate := some "19" }]
      = Except.ok [PdfRow.item "" 1 1 (119 / 100)] := by
    rw [List.mapM_cons, hrow, List.mapM_nil]
    rfl
  have hmap2 : List.mapM.loop (buildItemRow false)
      [{ quantity := some "1", unit_price := some "1", vat_rate := some "19" }] []
      = Except.ok [PdfRow.item "" 1 1 (119 / 100)] := hmap
  have hbuild : build_reportlab_pdf {}
      [{ quantity := some "1", unit_price := some "1", vat_rate := some "19" }]
      = Except.ok ⟨[PdfRow.header ["Beschreibung", "Menge", "Einzelpreis", "Gesamt"],
          PdfRow.item "" 1 1 (119 / 100), PdfRow.netto 1,
          PdfRow.vatRate 19 (19 / 100), PdfRow.gross (119 / 100)], ""⟩ := by
    simp [build_reportlab_pdf, hsbf, hcalc, hmap, hmap2, ok_bind, footerNotes,
      FormData.isSmallBusiness, pyEqTrueStr, vatRows, sortByRate, insertByRate]
    norm_num [quantize2HE, rhe]
  have hdate : parseYMD "2026-02-03" = some (2026, 2, 3) := by decide
  have hlines : buildXmlLines false 1
      [{ quantity := some "1", unit_price := some "1", vat_rate := some "19" }]
      = Except.ok [⟨1, "Beschreibung", 1, "S", 19, 1, 1⟩] := by
    simp [buildXmlLines, buildXmlLine, itemRate, h1, h19, ok_bind, get_tax_category_code]
    norm_num [quantize2HE, quantize4HE, quantize2HU, rhe, rhu]
  have hxml : generate_zugferd_xml {}
      [{ quantity := some "1", unit_price := some "1", vat_rate := some "19" }]
      "2026-02-03"
      = Except.ok ⟨"INV-GENERATED", (2026, 2, 3), [⟨1, "Beschreibung", 1, "S", 19, 1, 1⟩],
          [⟨19 / 100, 1, "S", 19⟩], 1, 1, 19 / 100, 119 / 100, 119 / 100⟩ := by
    simp [generate_zugferd_xml, hdate, hsbf, hcalc, hlines, ok_bind, get_tax_category_code]
    norm_num [quantize2HE, rhe]
  rw [generate_invoice_pdf, hbuild, ok_bind, hxml, ok_bind]

/-!  Claim C8. -/

/-- C8 amended: the summary block of the rendered table consists of the
net row, then one VAT row per rate bucket of the rate-sorted summary
whose rounded VAT amount is positive (not per nonzero rate: a nonzero
rate whose VAT rounds to zero gets no row), then the bold gross row;
the VAT rows are skipped entirely under the small-business flag. -/
theorem C8_summary_block_structure (fd : FormData) (items : List Item) (r : RenderedPdf)
    (h : build_reportlab_pdf fd items = Except.ok r) :
    ∃ (t : Totals) (irows : List PdfRow),
      calculate_totals items fd.isSmallBusiness = Except.ok t ∧
      List.mapM (buildItemRow fd.isSmallBusiness) items = Except.ok irows ∧
      r.rows = (PdfRow.header ["Beschreibung", "Menge", "Einzelpreis", "Gesamt"] :: irows
          ++ [PdfRow.netto (quantize2HE t.net)]
          ++ (if fd.isSmallBusiness then [] else vatRows t.summary))
          ++ [PdfRow.gross (quantize2HE t.gross)] ∧
      vatRows t.summary
        = ((sortByRate t.summary).filter (fun x => 0 < x.2.vat)).map
            (fun x => PdfRow.vatRate x.1 (quantize2HE x.2.vat)) := by
  unfold build_reportlab_pdf at h
  cases hc : calculate_totals items fd.isSmallBusiness with
  | error e =>
    simp only [hc, error_bind] at h
    exact absurd h (by simp)
  | ok t =>
    simp only [hc, ok_bind] at h
    cases hm : List.mapM (buildItemRow fd.isSmallBusiness) items with
    | error e =>
      simp only [hm, error_bind] at h
      exact absurd h (by simp)
    | ok irows =>
      simp only [hm, ok_bind, Except.ok.injEq] at h
      subst h
      exact ⟨t, irows, rfl, rfl, rfl, rfl⟩

/-- Witness for the amended C8 at the 19-percent single-item invoice. -/
theorem C8_summary_block_structure_witness :
    ∃ (t : Totals) (irows : List PdfRow),
      calculate_totals [{ quantity := some "1", unit_price := some "1", vat_rate := some "19" }]
          (FormData.isSmallBusiness {}) = Except.ok t ∧
      List.mapM (buildItemRow (FormData.isSmallBusiness {}))
          [{ quantity := some "1", unit_price := some "1", vat_rate := some "19" }]
        = Except.ok irows ∧
      (RenderedPdf.mk [PdfRow.header ["Beschreibung", "Menge", "Einzelpreis", "Gesamt"],
          PdfRow.item "" 1 1 (119 / 100), PdfRow.netto 1,
          PdfRow.vatRate 19 (19 / 100), PdfRow.gross (119 / 100)] "").rows
        = (PdfRow.header ["Beschreibung", "Menge", "Einzelpreis", "Gesamt"] :: irows
            ++ [PdfRow.netto (quantize2HE t.net)]
            ++ (if FormData.isSmallBusiness {} then [] else vatRows t.summary))
            ++ [PdfRow.gross (quantize2HE t.gross)] ∧
      vatRows t.summary
        = ((sortByRate t.summary).filter (fun x => 0 < x.2.vat)).map
            (fun x => PdfRow.vatRate x.1 (quantize2HE x.2.vat)) := by
  apply C8_summary_block_structure {}
    [{ quantity := some "1", unit_price := some "1", vat_rate := some "19" }]
  have h1 := decodeField_eval (some "1") 1 0 (by decide)
  have h19 := decodeField_eval (some "19") 19 0 (by decide)
  norm_num at h1 h19
  have hsbf : FormData.isSmallBusiness ({} : FormData) = false := by
    simp [FormData.isSmallBusiness, pyEqTrueStr]
  have hcalc : calculate_totals
      [{ quantity := some "1", unit_price := some "1", vat_rate := some "19" }] false
      = Except.ok ⟨1, 19 / 100, 119 / 100, [(19, ⟨1, 19 / 100⟩)]⟩ := by
    simp [calculate_totals, calculate_totals_aux, itemRate, h1, h19, ok_bind,
      addToBucket, vatSum]
    norm_num [quantize2HU, rhu, Totals.mk.injEq]
  have hrow : buildItemRow false
      { quantity := some "1", unit_price := some "1", vat_rate := some "19" }
      = Except.ok (PdfRow.item "" 1 1 (119 / 100)) := by
    simp [buildItemRow, itemRate, h1, h19, ok_bind]
    norm_num [quantize2HE, rhe]
  have hmap : List.mapM (buildItemRow false)
      [{ quantity := some "1", unit_price := some "1", vat_rate := some "19" }]
      = Except.ok [PdfRow.item "" 1 1 (119 / 100)] := by
    rw [List.mapM_cons, hrow, List.mapM_nil]
    rfl
  have hmap2 : List.mapM.loop (buildItemRow false)
      [{ quantity := some "1", unit_price := some "1", vat_rate := some "19" }] []
      = Except.ok [PdfRow.item "" 1 1 (119 / 100)] := hmap
  simp [build_reportlab_pdf, hsbf, hcalc, hmap, hmap2, ok_bind, footerNotes,
    FormData.isSmallBusiness, pyEqTrueStr, vatRows, sortByRate, insertByRate]
  norm_num [quantize2HE, rhe]

/-- Counterexample to C8 as stated: a single line of 0.02 at rate 19
makes a bucket with nonzero rate whose rounded VAT is 0.00, and the
rendered summary block contains no VAT row for it. -/
theorem C8_counterexample_zero_rounded_vat :
    ∃ r : RenderedPdf,
      build_reportlab_pdf {}
          [{ quantity := some "1", unit_price := some "0.02", vat_rate := some "19" }]
        = Except.ok r ∧
      r.rows.countP isVatRow = 0 ∧
      ∃ t : Totals,
        calculate_totals [{ quantity := some "1", unit_price := some "0.02", vat_rate := some "19" }]
            (FormData.isSmallBusiness {}) = Except.ok t ∧
        t.summary = [(19, ⟨1 / 50, 0⟩)] ∧ (19 : ℚ) ≠ 0 := by
  have h1 := decodeField_eval (some "1") 1 0 (by decide)
  have h19 := decodeField_eval (some "19") 19 0 (by decide)
  have h002 := decodeField_eval (some "0.02") 2 2 (by decide)
  norm_num at h1 h19 h002
  have hsbf : FormData.isSmallBusiness ({} : FormData) = false := by
    simp [FormData.isSmallBusiness, pyEqTrueStr]
  have hcalc : calculate_totals
      [{ quantity := some "1", unit_price := some "0.02", vat_rate := some "19" }] false
      = Except.ok ⟨1 / 50, 0, 1 / 50, [(19, ⟨1 / 50, 0⟩)]⟩ := by
    simp [calculate_totals, calculate_totals_aux, itemRate, h1, h19, h002, ok_bind,
      addToBucket, vatSum]
    norm_num [quantize2HU, rhu, Totals.mk.injEq]
  have hrow : buildItemRow false
      { quantity := some "1", unit_price := some "0.02", vat_rate := some "19" }
      = Except.ok (PdfRow.item "" 1 (1 / 50) (1 / 50)) := by
    simp [buildItemRow, itemRate, h1, h19, h002, ok_bind]
    norm_num [quantize2HE, rhe]
  have hmap : List.mapM (buildItemRow false)
      [{ quantity := some "1", unit_price := some "0.02", vat_rate := some "19" }]
      = Except.ok [PdfRow.item "" 1 (1 / 50) (1 / 50)] := by
    rw [List.mapM_cons, hrow, List.mapM_nil]
    rfl
  have hmap2 : List.mapM.loop (buildItemRow false)
      [{ quantity := some "1", unit_price := some "0.02", vat_rate := some "19" }] []
      = Except.ok [PdfRow.item "" 1 (1 / 50) (1 / 50)] := hmap
  refine ⟨⟨[PdfRow.header ["Beschreibung", "Menge", "Einzelpreis", "Gesamt"],
      PdfRow.item "" 1 (1 / 50) (1 / 50), PdfRow.netto (1 / 50), PdfRow.gross (1 / 50)], ""⟩,
    ?_, ?_, ⟨1 / 50, 0, 1 / 50, [(19, ⟨1 / 50, 0⟩)]⟩, by rw [hsbf]; exact hcalc, rfl, by norm_num⟩
  · simp [build_reportlab_pdf, hsbf, hcalc, hmap, hmap2, ok_bind, footerNotes,
      FormData.isSmallBusiness, pyEqTrueStr, vatRows, sortByRate, insertByRate]
    norm_num [quantize2HE, rhe]
  · simp [List.countP_cons, List.countP_nil, isVatRow]

/-!  Claim C9. -/

/-- C9: on the renderer's output (which carries none of the catalog
structures the assembler adds) the assembler is purely additive: the
page list of the assembled container is exactly the input page list,
and only the XMP metadata, the output intent (when the ICC profile
exists) and the embedded/associated-file structures are set. -/
theorem C9_assembler_additive (pages : List String) (xml : ZugferdXml) (fd : FormData)
    (iccExists : Bool) :
    (make_pdfa_compliant (rendererOutputDoc pages) xml fd iccExists).pages = pages ∧
    make_pdfa_compliant (rendererOutputDoc pages) xml fd iccExists
      = { rendererOutputDoc pages with
          metadata := some (buildXmp fd),
          outputIntents := if iccExists then [srgbOutputIntent] else [],
          embeddedFiles := [("factur-x.xml", ⟨"factur-x.xml", "Factur-X Invoice", "Data", xml⟩)],
          af := [⟨"factur-x.xml", "Factur-X Invoice", "Data", xml⟩] } := by
  exact ⟨rfl, rfl⟩

end Rechnung
